/-
Verification of the FlowPay gateway (Express routes + PolymarketClient facade).

The TypeScript source is shallowly embedded: JavaScript numbers are modelled
as exact rationals (the spec's §3 declares all monetary/size fields decimal)
where double rounding cannot change any compared value; where it can, an
IEEE-754 binary64 model is used (`binRound` and the `fp*` operations, plus
explicit 0/0 = NaN, x/0 = ±Infinity and the `toFixed` rendering of those).
Remote calls (the CLOB client, the Gamma API) are abstracted as oracle
parameters: an `Except String α` models a remote call that either throws
(with an error message) or returns a value.  Express handlers become pure
functions from the parsed request to an `HttpResponse` (status code plus a
shaped JSON body).
-/
import Mathlib

namespace FlowPay

/-! ## Data model (src/polymarket-client.ts interfaces) -/

/-- One `{price, size}` level of an order book. -/
structure PriceLevel where
  price : ℚ
  size : ℚ
deriving Repr, DecidableEq

/-- The raw order-book summary returned by `client.getOrderBook`, after the
`parseFloat` mapping of each level (modelled as exact decimals). -/
structure RawOrderBook where
  bids : List PriceLevel
  asks : List PriceLevel
deriving Repr, DecidableEq

/-- `MarketData` as returned by `PolymarketClient.getOrderBook`. -/
structure MarketData where
  tokenId : String
  bestBid : ℚ
  bestAsk : ℚ
  spread : ℚ
  bids : List PriceLevel
  asks : List PriceLevel
deriving Repr, DecidableEq

/-- `Math.max(...xs)` for a non-empty list (the source guards on
`length > 0`, returning 0 for the empty case at the call site). -/
def listMax : List ℚ → ℚ
  | [] => 0
  | p :: ps => ps.foldl max p

/-- `Math.min(...xs)` for a non-empty list. -/
def listMin : List ℚ → ℚ
  | [] => 0
  | p :: ps => ps.foldl min p

/-- `PolymarketClient.getOrderBook`, pure part: from the fetched raw book,
`bestBid = bidPrices.length > 0 ? Math.max(...bidPrices) : 0`,
`bestAsk = askPrices.length > 0 ? Math.min(...askPrices) : 0`,
`spread = bestAsk - bestBid`. -/
def getOrderBook (tokenId : String) (raw : RawOrderBook) : MarketData :=
  let bids := raw.bids
  let asks := raw.asks
  let bidPrices := bids.map (·.price)
  let askPrices := asks.map (·.price)
  let bestBid := if bidPrices.length > 0 then listMax bidPrices else 0
  let bestAsk := if askPrices.length > 0 then listMin askPrices else 0
  let spread := bestAsk - bestBid
  { tokenId, bestBid, bestAsk, spread, bids, asks }

/-! ## JS numeric formatting -/

/-- Left-pad a decimal string to three digits. -/
def padLeft3 (s : String) : String :=
  String.mk (List.replicate (3 - s.length) '0') ++ s

/-- `Number.prototype.toFixed(3)` on a finite value: pick the integer `n`
with `n / 1000` closest to the value, ties to the larger `n` (round half
up, i.e. `⌊x·1000 + 1/2⌋`), and render with exactly three fractional
digits. -/
def toFixed3 (q : ℚ) : String :=
  let n : ℤ := ⌊q * 1000 + 1 / 2⌋
  let sign := if n < 0 then "-" else ""
  let m := n.natAbs
  sign ++ toString (m / 1000) ++ "." ++ padLeft3 (toString (m % 1000))

/-- `((spread / bestBid) * 100).toFixed(3)` under JavaScript semantics:
when `bestBid = 0`, IEEE division gives `NaN` (for `0/0`) or `±Infinity`,
which `* 100` preserves and `toFixed` renders as the strings `"NaN"`,
`"Infinity"`, `"-Infinity"`; otherwise the finite value is formatted. -/
def spreadPercentage (spread bestBid : ℚ) : String :=
  if bestBid = 0 then
    if spread = 0 then "NaN"
    else if spread > 0 then "Infinity"
    else "-Infinity"
  else toFixed3 (spread / bestBid * 100)

/-! ## GET /markets/:tokenId/quote (src/routes/markets.ts) -/

/-- The `quote` object produced by the `GET /markets/:tokenId/quote`
handler. -/
structure Quote where
  tokenId : String
  bestBid : ℚ
  bestAsk : ℚ
  spread : ℚ
  spreadPercentage : String
deriving Repr, DecidableEq

/-- The quote handler's happy path: fetch the order book through the facade
and shape the quote, including the unguarded `spreadPercentage` division. -/
def quoteHandler (tokenId : String) (raw : RawOrderBook) : Quote :=
  let marketData := getOrderBook tokenId raw
  { tokenId
    bestBid := marketData.bestBid
    bestAsk := marketData.bestAsk
    spread := marketData.spread
    spreadPercentage := spreadPercentage marketData.spread marketData.bestBid }

/-! ## IEEE-754 binary64 model

The quote pipeline runs on JavaScript numbers, i.e. IEEE-754 binary64.
Every finite double is a rational; an arithmetic operation computes the
exact rational result and rounds it to 53 significand bits, to nearest,
ties to even.  `binRound` implements that rounding for values in the
normal finite range (amply covering prices in (0,1] and their quotients
here; overflow and subnormals do not arise). -/

/-- Round a rational to the nearest integer, ties to even. -/
def roundHalfEven (q : ℚ) : ℤ :=
  let fl := ⌊q⌋
  let fr := q - fl
  if fr < 1/2 then fl
  else if 1/2 < fr then fl + 1
  else if fl % 2 = 0 then fl else fl + 1

/-- Binary64 rounding of a positive rational: scale into `[2^52, 2^53)`,
round the significand half-to-even, scale back. -/
def binRoundPos (q : ℚ) : ℚ :=
  let e : ℤ := Int.log 2 q
  ((roundHalfEven (q * 2 ^ ((52 : ℤ) - e)) : ℤ) : ℚ) * 2 ^ (e - 52)

/-- Binary64 rounding (round to nearest, ties to even) of a rational in
the normal finite range; also models `parseFloat` of an exact decimal
string. -/
def binRound (q : ℚ) : ℚ :=
  if q = 0 then 0
  else if 0 < q then binRoundPos q
  else -binRoundPos (-q)

/-- Binary64 subtraction: exact difference, then rounding. -/
def fpSub (x y : ℚ) : ℚ := binRound (x - y)

/-- Binary64 division (non-zero divisor): exact quotient, then rounding. -/
def fpDiv (x y : ℚ) : ℚ := binRound (x / y)

/-- Binary64 multiplication: exact product, then rounding. -/
def fpMul (x y : ℚ) : ℚ := binRound (x * y)

/-- `PolymarketClient.getOrderBook` under binary64 arithmetic: each
level's `parseFloat` rounds the remote decimal to the nearest double,
`Math.max`/`Math.min` are exact on doubles, and
`spread = bestAsk - bestBid` is a rounded double subtraction. -/
def getOrderBookFP (tokenId : String) (raw : RawOrderBook) : MarketData :=
  let bids := raw.bids.map
    (fun l => { price := binRound l.price, size := binRound l.size : PriceLevel })
  let asks := raw.asks.map
    (fun l => { price := binRound l.price, size := binRound l.size : PriceLevel })
  let bidPrices := bids.map (·.price)
  let askPrices := asks.map (·.price)
  let bestBid := if bidPrices.length > 0 then listMax bidPrices else 0
  let bestAsk := if askPrices.length > 0 then listMin askPrices else 0
  let spread := fpSub bestAsk bestBid
  { tokenId, bestBid, bestAsk, spread, bids, asks }

/-- `((spread / bestBid) * 100).toFixed(3)` under binary64 arithmetic:
the division and multiplication round to doubles; the division-by-zero
branches are as in `spreadPercentage`. -/
def spreadPercentageFP (spread bestBid : ℚ) : String :=
  if bestBid = 0 then
    if spread = 0 then "NaN"
    else if spread > 0 then "Infinity"
    else "-Infinity"
  else toFixed3 (fpMul (fpDiv spread bestBid) 100)

/-- The `GET /markets/:tokenId/quote` handler's happy path under binary64
arithmetic. -/
def quoteHandlerFP (tokenId : String) (raw : RawOrderBook) : Quote :=
  let marketData := getOrderBookFP tokenId raw
  { tokenId
    bestBid := marketData.bestBid
    bestAsk := marketData.bestAsk
    spread := marketData.spread
    spreadPercentage := spreadPercentageFP marketData.spread marketData.bestBid }

/-! ## JS truthiness helpers -/

/-- JS falsiness of a possibly-absent string: `undefined` or `""`. -/
def falsyStr : Option String → Bool
  | none => true
  | some s => s == ""

/-- JS falsiness of a possibly-absent number: `undefined` or `0`
(`NaN` does not arise at the guarded call sites). -/
def falsyNum : Option ℚ → Bool
  | none => true
  | some q => q == 0

/-! ## GET /markets (src/routes/markets.ts) -/

/-- Raw query-string values of `GET /markets`; `none` models an absent
parameter. -/
structure MarketsQuery where
  active : Option String
  closed : Option String
  archived : Option String
  limit : Option String
deriving Repr, DecidableEq

/-- `parseInt(s)` in radix 10: optional sign, then the longest leading
digit run; `none` models `NaN` when no digits lead. -/
def parseIntJS (s : String) : Option ℤ :=
  let signSplit : ℤ × List Char :=
    match s.toList with
    | '-' :: t => (-1, t)
    | '+' :: t => (1, t)
    | t => (1, t)
  let ds := signSplit.2.takeWhile (·.isDigit)
  if ds.isEmpty then none
  else some (signSplit.1 * (ds.foldl (fun n c => n * 10 + (c.toNat - '0'.toNat)) 0 : ℕ))

/-- The filter object handed to `client.getMarkets`; `limit = none` models
a `NaN` from `parseInt`. -/
structure GetMarketsParams where
  active : Bool
  closed : Bool
  archived : Bool
  limit : Option ℤ
deriving Repr, DecidableEq

/-- Parameter assembly in the `GET /markets` handler:
`active: active === 'true'`, `closed: closed === 'true'`,
`archived: archived === 'false'`, `limit: limit ? parseInt(limit) : 50`
(an absent or empty `limit` string is falsy, so the default 50 applies). -/
def parseMarketsQuery (q : MarketsQuery) : GetMarketsParams :=
  { active := q.active == some "true"
    closed := q.closed == some "true"
    archived := q.archived == some "false"
    limit := if falsyStr q.limit then some 50 else parseIntJS (q.limit.getD "") }

/-! ## Trading data model (src/polymarket-client.ts) -/

/-- `side` after validation: the `'BUY' | 'SELL'` union. -/
inductive Side
  | BUY
  | SELL
deriving Repr, DecidableEq

/-- `OrderParams` passed from the route into the facade. -/
structure OrderParams where
  tokenId : String
  price : ℚ
  size : ℚ
  side : Side
deriving Repr, DecidableEq

/-- The facade's `OrderResponse` result record. -/
structure OrderResponse where
  orderId : String
  success : Bool
  message : Option String
deriving Repr, DecidableEq

/-- The remote `postOrder` response: `orderID` is `none` when absent,
`some ""` when present but empty (both falsy in JS). -/
structure PostOrderResp where
  orderID : Option String
deriving Repr, DecidableEq

/-- `error.message || fallback`: an empty message string is falsy. -/
def errMessage (fallback : String) (e : String) : String :=
  if e == "" then fallback else e

/-- `response.orderID || 'unknown'`. -/
def orderIdOrUnknown : Option String → String
  | none => "unknown"
  | some s => if s == "" then "unknown" else s

/-- `PolymarketClient.createOrder`: the two remote calls — signing via
`client.createOrder(orderArgs)` and submission via `client.postOrder` —
are oracle parameters that either throw (`.error` with the error message)
or return.  Every throw is caught and mapped to a `success = false`
result, so the method itself never throws. -/
def clientCreateOrder (_params : OrderParams)
    (signResult : Except String Unit) (postResult : Except String PostOrderResp) :
    OrderResponse :=
  match signResult with
  | .error e =>
    { orderId := "", success := false, message := some (errMessage "Failed to create order" e) }
  | .ok _ =>
    match postResult with
    | .error e =>
      { orderId := "", success := false, message := some (errMessage "Failed to create order" e) }
    | .ok response =>
      { orderId := orderIdOrUnknown response.orderID
        success := true
        message := some "Order placed successfully" }

/-- One open order from `client.getOrders()`; only the fields the code
reads are modelled. -/
structure OpenOrder where
  id : String
  asset_id : String
deriving Repr, DecidableEq

/-- The result record of `cancelAllOrders`. -/
structure CancelAllResult where
  success : Bool
  cancelledCount : ℕ
deriving Repr, DecidableEq

/-- The `tokenId ? orders.filter(o => o.asset_id === tokenId) : orders`
selection (an absent or empty token filter keeps every order). -/
def ordersToCancel (tokenId : Option String) (orders : List OpenOrder) : List OpenOrder :=
  if falsyStr tokenId then orders
  else orders.filter (fun o => o.asset_id == tokenId.getD "")

/-- `PolymarketClient.cancelAllOrders`: the open-order listing and each
per-order cancel are oracles.  A throw from the listing is caught and
yields `{success: false, cancelledCount: 0}`; a throw from one cancel is
caught, logged, and the loop continues, counting only successes. -/
def cancelAllOrders (tokenId : Option String)
    (listing : Except String (List OpenOrder))
    (cancelOutcome : String → Except String Unit) : CancelAllResult :=
  match listing with
  | .error _ => { success := false, cancelledCount := 0 }
  | .ok orders =>
    let targets := ordersToCancel tokenId orders
    let cancelledCount := targets.foldl
      (fun n o =>
        match cancelOutcome o.id with
        | .ok _ => n + 1
        | .error _ => n) 0
    { success := true, cancelledCount }

/-! ## Trading routes (src/routes/trading.ts) -/

/-- JSON bodies produced by the trading/market handlers, one constructor
per shape. -/
inductive ResponseBody
  | errorEnvelope (error : String)
  | orderEnvelope (success : Bool) (order : OrderResponse)
  | cancelAllEnvelope (success : Bool) (cancelledCount : ℕ)
deriving Repr, DecidableEq

/-- An HTTP response: status code plus shaped JSON body. -/
structure HttpResponse where
  status : ℕ
  body : ResponseBody
deriving Repr, DecidableEq

/-- Parsed `POST /orders` JSON body; a field is `none` when absent. -/
structure OrderBody where
  tokenId : Option String
  price : Option ℚ
  size : Option ℚ
  side : Option String
deriving Repr, DecidableEq

/-- The validation prefix of the `POST /orders` handler, checks in source
order: falsy required fields, side enum, `price <= 0 || price >= 1`,
`size <= 0`.  Returns the `OrderParams` handed to the facade when all
checks pass. -/
def validateOrder (b : OrderBody) : Except String OrderParams :=
  if falsyStr b.tokenId || falsyNum b.price || falsyNum b.size || falsyStr b.side then
    .error "Missing required fields: tokenId, price, size, side"
  else if b.side != some "BUY" && b.side != some "SELL" then
    .error "Side must be either BUY or SELL"
  else if b.price.getD 0 ≤ 0 ∨ 1 ≤ b.price.getD 0 then
    .error "Price must be between 0 and 1"
  else if b.size.getD 0 ≤ 0 then
    .error "Size must be greater than 0"
  else
    .ok { tokenId := b.tokenId.getD ""
          price := b.price.getD 0
          size := b.size.getD 0
          side := if b.side == some "BUY" then Side.BUY else Side.SELL }

/-- The `POST /orders` handler: a validation failure short-circuits with a
400 error envelope and the facade is never consulted; otherwise the
facade's result is returned with status 200 as
`{success: result.success, order: result}`. -/
def postOrdersHandler (facade : OrderParams → OrderResponse) (b : OrderBody) : HttpResponse :=
  match validateOrder b with
  | .error msg => { status := 400, body := .errorEnvelope msg }
  | .ok p =>
    let orderResponse := facade p
    { status := 200, body := .orderEnvelope orderResponse.success orderResponse }

/-- The `DELETE /orders` handler body: `res.json(await
client.cancelAllOrders(tokenId))`; since the facade method never throws,
the reply is always status 200 carrying the result record. -/
def deleteOrdersHandler (tokenId : Option String)
    (listing : Except String (List OpenOrder))
    (cancelOutcome : String → Except String Unit) : HttpResponse :=
  let result := cancelAllOrders tokenId listing cancelOutcome
  { status := 200, body := .cancelAllEnvelope result.success result.cancelledCount }

/-! ## Lazy initialization under concurrency (PolymarketClient.initialize) -/

/-- Progress of one concurrent call into `ensureInitialized`, tracked at
await boundaries: `ready` = its first synchronous segment has not run;
`awaitingDerive` = it has issued `deriveApiKey()` and is suspended on the
await; `finished` = the call has returned. -/
inductive TaskPC
  | ready
  | awaitingDerive
  | finished
deriving Repr, DecidableEq

/-- Shared facade state plus per-task progress: the bare boolean
`initialized` flag, the number of `deriveApiKey` calls issued to the
remote service so far, and each concurrent caller's position. -/
structure InitRace where
  initialized : Bool
  deriveCalls : ℕ
  tasks : List TaskPC
deriving Repr, DecidableEq

/-- One event-loop step of task `i`, running its next synchronous segment.
From `ready`: read `this.initialized`; if set, return at once; otherwise
enter `initialize()` (whose own flag check sees the same unset flag),
issue `deriveApiKey()` and suspend at its await.  From `awaitingDerive`:
resume past the await and set `initialized = true`. -/
def initStep (s : InitRace) (i : ℕ) : InitRace :=
  match s.tasks.get? i with
  | some .ready =>
    if s.initialized then { s with tasks := s.tasks.set i .finished }
    else { s with deriveCalls := s.deriveCalls + 1, tasks := s.tasks.set i .awaitingDerive }
  | some .awaitingDerive =>
    { s with initialized := true, tasks := s.tasks.set i .finished }
  | _ => s

/-- Run the event loop under an explicit interleaving of task steps. -/
def runInit (schedule : List ℕ) (s : InitRace) : InitRace :=
  schedule.foldl initStep s

/-- `n` concurrent callers against a freshly constructed (uninitialized)
facade. -/
def initRaceStart (n : ℕ) : InitRace :=
  { initialized := false, deriveCalls := 0, tasks := List.replicate n .ready }

/-! ## Helper lemmas -/

theorem intLog2_eq {q : ℚ} {e : ℤ} (hq : 0 < q)
    (h1 : (2:ℚ) ^ e ≤ q) (h2 : q < (2:ℚ) ^ (e + 1)) :
    Int.log 2 q = e := by
  have hb : (1:ℕ) < 2 := one_lt_two
  have hle : e ≤ Int.log 2 q := by
    rw [← Int.zpow_le_iff_le_log hb hq]
    exact_mod_cast h1
  have hlt : Int.log 2 q < e + 1 := by
    rw [← Int.lt_zpow_iff_log_lt hb hq]
    exact_mod_cast h2
  omega

theorem binRound_eval {q : ℚ} {e : ℤ} {m : ℤ} (hq : 0 < q)
    (h1 : (2:ℚ) ^ e ≤ q) (h2 : q < (2:ℚ) ^ (e + 1))
    (hm : roundHalfEven (q * 2 ^ ((52 : ℤ) - e)) = m) :
    binRound q = (m : ℚ) * 2 ^ (e - 52) := by
  rw [binRound, if_neg hq.ne', if_pos hq, binRoundPos, intLog2_eq hq h1 h2, hm]

theorem binRound_097 : binRound (97/100) = 4368491638549381/4503599627370496 := by
  have h1 : (2:ℚ) ^ (-1 : ℤ) ≤ 97/100 := by norm_num
  have h2 : (97/100 : ℚ) < 2 ^ ((-1 : ℤ) + 1) := by norm_num
  have hm : roundHalfEven ((97/100 : ℚ) * 2 ^ ((52 : ℤ) - (-1))) = 8736983277098762 := by
    have harg : (97/100 : ℚ) * 2 ^ ((52 : ℤ) - (-1)) = 218424581927469056/25 := by
      norm_num
    rw [harg, roundHalfEven]
    norm_num
  have h := binRound_eval (by norm_num) h1 h2 hm
  rw [h]
  norm_num

theorem binRound_0975 :
    binRound (975/1000) = 8782019273372467/9007199254740992 := by
  have h1 : (2:ℚ) ^ (-1 : ℤ) ≤ 975/1000 := by norm_num
  have h2 : (975/1000 : ℚ) < 2 ^ ((-1 : ℤ) + 1) := by norm_num
  have hm : roundHalfEven ((975/1000 : ℚ) * 2 ^ ((52 : ℤ) - (-1))) = 8782019273372467 := by
    have harg : (975/1000 : ℚ) * 2 ^ ((52 : ℤ) - (-1)) = 43910096366862336/5 := by
      norm_num
    rw [harg, roundHalfEven]
    norm_num
  have h := binRound_eval (by norm_num) h1 h2 hm
  rw [h]
  norm_num

theorem fpSub_scenario :
    fpSub (8782019273372467/9007199254740992) (4368491638549381/4503599627370496)
      = 45035996273705/9007199254740992 := by
  have hd : (8782019273372467/9007199254740992 : ℚ) - 4368491638549381/4503599627370496
      = 45035996273705/9007199254740992 := by norm_num
  rw [fpSub, hd]
  have h1 : (2:ℚ) ^ (-8 : ℤ) ≤ 45035996273705/9007199254740992 := by norm_num
  have h2 : (45035996273705/9007199254740992 : ℚ) < 2 ^ ((-8 : ℤ) + 1) := by norm_num
  have hm : roundHalfEven ((45035996273705/9007199254740992 : ℚ) * 2 ^ ((52 : ℤ) - (-8)))
      = 5764607523034240 := by
    have harg : (45035996273705/9007199254740992 : ℚ) * 2 ^ ((52 : ℤ) - (-8))
        = 5764607523034240 := by norm_num
    rw [harg, roundHalfEven]
    norm_num
  have h := binRound_eval (by norm_num) h1 h2 hm
  rw [h]
  norm_num

theorem fpDiv_scenario :
    fpDiv (45035996273705/9007199254740992) (4368491638549381/4503599627370496)
      = 5942894353643547/1152921504606846976 := by
  have hd : (45035996273705/9007199254740992 : ℚ) / (4368491638549381/4503599627370496)
      = 45035996273705/8736983277098762 := by norm_num
  rw [fpDiv, hd]
  have h1 : (2:ℚ) ^ (-8 : ℤ) ≤ 45035996273705/8736983277098762 := by norm_num
  have h2 : (45035996273705/8736983277098762 : ℚ) < 2 ^ ((-8 : ℤ) + 1) := by norm_num
  have hm : roundHalfEven ((45035996273705/8736983277098762 : ℚ) * 2 ^ ((52 : ℤ) - (-8)))
      = 5942894353643547 := by
    have harg : (45035996273705/8736983277098762 : ℚ) * 2 ^ ((52 : ℤ) - (-8))
        = 25961484292674161201082573783040/4368491638549381 := by norm_num
    rw [harg, roundHalfEven]
    norm_num
  have h := binRound_eval (by norm_num) h1 h2 hm
  rw [h]
  norm_num

theorem fpMul_scenario :
    fpMul (5942894353643547/1152921504606846976) 100
      = 4642886213784021/9007199254740992 := by
  have hd : (5942894353643547/1152921504606846976 : ℚ) * 100
      = 148572358841088675/288230376151711744 := by norm_num
  rw [fpMul, hd]
  have h1 : (2:ℚ) ^ (-1 : ℤ) ≤ 148572358841088675/288230376151711744 := by norm_num
  have h2 : (148572358841088675/288230376151711744 : ℚ) < 2 ^ ((-1 : ℤ) + 1) := by norm_num
  have hm : roundHalfEven
        ((148572358841088675/288230376151711744 : ℚ) * 2 ^ ((52 : ℤ) - (-1)))
      = 4642886213784021 := by
    have harg : (148572358841088675/288230376151711744 : ℚ) * 2 ^ ((52 : ℤ) - (-1))
        = 148572358841088675/32 := by norm_num
    rw [harg, roundHalfEven]
    norm_num
  have h := binRound_eval (by norm_num) h1 h2 hm
  rw [h]
  norm_num

theorem toFixed3_scenario :
    toFixed3 (4642886213784021/9007199254740992) = "0.515" := by
  have hfl : ⌊(4642886213784021/9007199254740992 : ℚ) * 1000 + 1/2⌋ = (515 : ℤ) := by
    norm_num
  simp only [toFixed3, hfl]
  decide

/-! ## Claim theorems -/

/-- C1: the quote handler's `spreadPercentage` division is NOT guarded
when `bestBid = 0`: with an empty bid side and a non-empty ask side the
handler returns the string `"Infinity"`, and with both sides empty it
returns `"NaN"` — contradicting the requirement that neither string is
ever produced. -/
theorem quote_spreadPercentage_unguarded :
    (quoteHandler "123" { bids := [], asks := [{ price := 1/2, size := 1 }] }).spreadPercentage
        = "Infinity" ∧
    (quoteHandler "123" { bids := [], asks := [] }).spreadPercentage = "NaN" := by
  constructor <;>
    norm_num [quoteHandler, getOrderBook, spreadPercentage, listMax, listMin]

/-- C8: the bare-boolean lazy initialization is not single-flight: with
two concurrent calls into `ensureInitialized` on an uninitialized facade,
the interleaving in which both tasks run their first synchronous segment
before either resumes issues TWO `deriveApiKey` calls to the remote
service, not one. -/
theorem initRace_double_derivation :
    runInit [0, 1, 0, 1] (initRaceStart 2)
      = { initialized := true, deriveCalls := 2, tasks := [.finished, .finished] } := by
  decide

/-- C9: when the remote listing of open orders throws, `cancelAllOrders`
swallows the error and returns `{success: false, cancelledCount: 0}`, and
the `DELETE /orders` handler replies with HTTP 200 carrying exactly that
body (not the 500 error envelope). -/
theorem cancelAllOrders_listing_throw (tokenId : Option String) (e : String)
    (cancelOutcome : String → Except String Unit) :
    cancelAllOrders tokenId (.error e) cancelOutcome
        = { success := false, cancelledCount := 0 } ∧
    deleteOrdersHandler tokenId (.error e) cancelOutcome
        = { status := 200, body := .cancelAllEnvelope false 0 } :=
  ⟨rfl, rfl⟩

/-- C7 fails as stated: under the program's IEEE binary64 arithmetic the
returned spread is `0.975₍f64₎ − 0.97₍f64₎ = 45035996273705·2⁻⁵³ =
0.0050000000000000044…`, not exactly `0.005`; the quote therefore does
not equal the claimed record at the scenario order book. -/
theorem quote_scenario_double_counterexample :
    (quoteHandlerFP "123"
        { bids := [{ price := 97/100, size := 10 }],
          asks := [{ price := 975/1000, size := 5 }] }).spread ≠ 1/200 ∧
    (quoteHandlerFP "123"
        { bids := [{ price := 97/100, size := 10 }],
          asks := [{ price := 975/1000, size := 5 }] }).spread
      = 45035996273705/9007199254740992 := by
  have hs : (quoteHandlerFP "123"
      { bids := [{ price := 97/100, size := 10 }],
        asks := [{ price := 975/1000, size := 5 }] }).spread
      = 45035996273705/9007199254740992 := by
    simp only [quoteHandlerFP, getOrderBookFP, List.map_cons, List.map_nil,
      List.length_cons, List.length_nil, listMax, listMin, List.foldl_nil,
      binRound_097, binRound_0975]
    norm_num [fpSub_scenario]
  exact ⟨by rw [hs]; norm_num, hs⟩

/-- C7 (amended): for the scenario order book the quote handler returns
`bestBid` and `bestAsk` equal to the doubles nearest 0.97 and 0.975,
`spread` equal to the binary64 difference `45035996273705·2⁻⁵³`
(`0.0050000000000000044…`, not exactly 0.005), and
`spreadPercentage = "0.515"` as claimed. -/
theorem quote_scenario_fp :
    quoteHandlerFP "123"
        { bids := [{ price := 97/100, size := 10 }],
          asks := [{ price := 975/1000, size := 5 }] }
      = { tokenId := "123", bestBid := 4368491638549381/4503599627370496,
          bestAsk := 8782019273372467/9007199254740992,
          spread := 45035996273705/9007199254740992,
          spreadPercentage := "0.515" } := by
  simp only [quoteHandlerFP, getOrderBookFP, spreadPercentageFP, List.map_cons,
    List.map_nil, List.length_cons, List.length_nil, listMax, listMin, List.foldl_nil,
    binRound_097, binRound_0975]
  norm_num [fpSub_scenario, fpDiv_scenario, fpMul_scenario, toFixed3_scenario]

/-- C2 fails as stated: the `GET /markets` handler compares the
`archived` query value against the string `"false"`, so
`archived=true` in the query string yields filter value `false`, and
`archived=false` yields filter value `true`. -/
theorem marketsQuery_archived_counterexample :
    (parseMarketsQuery { active := none, closed := none, archived := some "true",
                         limit := none }).archived = false ∧
    (parseMarketsQuery { active := none, closed := none, archived := some "false",
                         limit := none }).archived = true := by
  decide

/-- C2 (amended): the `active` and `closed` filters are true exactly when
their query value is the string `"true"`, but the `archived` filter is
true exactly when its query value is the string `"false"`; the limit
passed to `getMarkets` is 50 whenever the `limit` query parameter is
absent. -/
theorem marketsQuery_parsing (a c ar l : Option String) :
    ((parseMarketsQuery { active := a, closed := c, archived := ar, limit := l }).active = true
        ↔ a = some "true") ∧
    ((parseMarketsQuery { active := a, closed := c, archived := ar, limit := l }).closed = true
        ↔ c = some "true") ∧
    ((parseMarketsQuery { active := a, closed := c, archived := ar, limit := l }).archived = true
        ↔ ar = some "false") ∧
    (parseMarketsQuery { active := a, closed := c, archived := ar, limit := none }).limit
        = some 50 := by
  simp [parseMarketsQuery, falsyStr]

/-- C2 witness: the amended claim instantiated at a concrete query
(`active=true`, `closed` absent, `archived=false`, `limit` absent). -/
theorem marketsQuery_parsing_witness :
    ((parseMarketsQuery ⟨some "true", none, some "false", none⟩).active = true
        ↔ (some "true" : Option String) = some "true") ∧
    (parseMarketsQuery ⟨some "true", none, some "false", none⟩).limit = some 50 :=
  ⟨(marketsQuery_parsing (some "true") none (some "false") none).1,
   (marketsQuery_parsing (some "true") none (some "false") none).2.2.2⟩

/-- C5: when the remote service rejects the order (either remote call
throws), `clientCreateOrder` returns a `success = false` result with a
message instead of throwing, and the `POST /orders` handler propagates a
facade-reported failure as status 200 with `{success: false, order}`,
not 500. -/
theorem createOrder_rejection_propagates (params : OrderParams) (e : String)
    (pr : Except String PostOrderResp)
    (b : OrderBody) (p : OrderParams) (hv : validateOrder b = .ok p) :
    (clientCreateOrder params (.ok ()) (.error e)).success = false ∧
    (clientCreateOrder params (.ok ()) (.error e)).message
        = some (errMessage "Failed to create order" e) ∧
    (clientCreateOrder params (.error e) pr).success = false ∧
    (clientCreateOrder params (.error e) pr).message
        = some (errMessage "Failed to create order" e) ∧
    postOrdersHandler (fun _ => clientCreateOrder params (.ok ()) (.error e)) b
        = { status := 200,
            body := .orderEnvelope false (clientCreateOrder params (.ok ()) (.error e)) } := by
  refine ⟨rfl, rfl, rfl, rfl, ?_⟩
  simp [postOrdersHandler, hv, clientCreateOrder]

/-- C5 witness: the spec scenario — body `{tokenId: "T", price: 0.5,
size: 10, side: "BUY"}` against a rejecting remote — produces a 200
response with `{success: false, order: {orderId: "", success: false,
message: "order rejected"}}`. -/
theorem createOrder_rejection_witness :
    validateOrder { tokenId := some "T", price := some (1/2), size := some 10,
                    side := some "BUY" }
      = .ok { tokenId := "T", price := 1/2, size := 10, side := Side.BUY } ∧
    postOrdersHandler
        (fun _ => clientCreateOrder
          { tokenId := "T", price := 1/2, size := 10, side := Side.BUY }
          (.ok ()) (.error "order rejected"))
        { tokenId := some "T", price := some (1/2), size := some 10, side := some "BUY" }
      = { status := 200,
          body := .orderEnvelope false
            (clientCreateOrder
              { tokenId := "T", price := 1/2, size := 10, side := Side.BUY }
              (.ok ()) (.error "order rejected")) } := by
  have hv : validateOrder
        { tokenId := some "T", price := some (1/2), size := some 10, side := some "BUY" }
      = .ok { tokenId := "T", price := 1/2, size := 10, side := Side.BUY } := by
    have hT : ("T" : String) ≠ "" := by decide
    have hBUY : ("BUY" : String) ≠ "" := by decide
    norm_num [validateOrder, falsyStr, falsyNum, hT, hBUY]
  exact ⟨hv, (createOrder_rejection_propagates
    { tokenId := "T", price := 1/2, size := 10, side := Side.BUY }
    "order rejected" (.error "order rejected") _ _ hv).2.2.2.2⟩

/-- Whether the per-order cancel oracle succeeds for an order. -/
def cancelSucceeds (f : String → Except String Unit) (o : OpenOrder) : Bool :=
  match f o.id with
  | .ok _ => true
  | .error _ => false

theorem foldl_cancel_count (f : String → Except String Unit) (l : List OpenOrder) (n : ℕ) :
    l.foldl (fun n o =>
        match f o.id with
        | .ok _ => n + 1
        | .error _ => n) n
      = n + (l.filter (cancelSucceeds f)).length := by
  induction l generalizing n with
  | nil => simp
  | cons h t ih =>
    cases hf : f h.id with
    | ok u =>
      have hs : cancelSucceeds f h = true := by simp [cancelSucceeds, hf]
      simp only [List.foldl_cons, List.filter_cons, hs, if_true, hf]
      rw [ih]
      simp only [List.length_cons]
      ring
    | error e =>
      have hs : cancelSucceeds f h = false := by simp [cancelSucceeds, hf]
      simp only [List.foldl_cons, List.filter_cons, hs, hf]
      rw [ih]
      simp

/-- C6: `cancelAllOrders` with a (non-falsy) token filter targets exactly
the open orders whose `asset_id` matches (all orders when no filter is
given); the returned `cancelledCount` is the number of targeted orders
whose individual cancellation succeeded, regardless of interleaved
failures, and the overall result still reports `success = true`. -/
theorem cancelAllOrders_filter_and_count (t : String) (ht : t ≠ "")
    (orders : List OpenOrder) (f : String → Except String Unit) :
    ordersToCancel (some t) orders = orders.filter (fun o => o.asset_id == t) ∧
    ordersToCancel none orders = orders ∧
    (cancelAllOrders (some t) (.ok orders) f).success = true ∧
    (cancelAllOrders (some t) (.ok orders) f).cancelledCount
        = ((orders.filter (fun o => o.asset_id == t)).filter (cancelSucceeds f)).length ∧
    (cancelAllOrders none (.ok orders) f).cancelledCount
        = (orders.filter (cancelSucceeds f)).length := by
  have hfs : falsyStr (some t) = false := by simp [falsyStr, ht]
  have h1 : ordersToCancel (some t) orders = orders.filter (fun o => o.asset_id == t) := by
    simp [ordersToCancel, hfs]
  have h2 : ordersToCancel none orders = orders := by
    simp [ordersToCancel, falsyStr]
  refine ⟨h1, h2, rfl, ?_, ?_⟩
  · show (ordersToCancel (some t) orders).foldl _ 0 = _
    rw [h1, foldl_cancel_count]
    omega
  · show (ordersToCancel none orders).foldl _ 0 = _
    rw [h2, foldl_cancel_count]
    omega

/-- C6 witness: three open orders, two matching token "A", with the
FIRST matching cancel failing: the loop continues past the failure, the
non-matching order is never targeted, and `cancelledCount = 1`. -/
theorem cancelAllOrders_filter_and_count_witness :
    ("A" : String) ≠ "" ∧
    (cancelAllOrders (some "A")
        (.ok [{ id := "o1", asset_id := "A" }, { id := "o2", asset_id := "A" },
              { id := "o3", asset_id := "B" }])
        (fun id => if id == "o1" then .error "boom" else .ok ())).cancelledCount
      = (([{ id := "o1", asset_id := "A" }, { id := "o2", asset_id := "A" },
           { id := "o3", asset_id := "B" }].filter (fun o => o.asset_id == "A")).filter
          (cancelSucceeds (fun id => if id == "o1" then .error "boom" else .ok ()))).length ∧
    (cancelAllOrders (some "A")
        (.ok [{ id := "o1", asset_id := "A" }, { id := "o2", asset_id := "A" },
              { id := "o3", asset_id := "B" }])
        (fun id => if id == "o1" then .error "boom" else .ok ())).cancelledCount = 1 := by
  refine ⟨by decide, ?_, by decide⟩
  exact (cancelAllOrders_filter_and_count "A" (by decide) _ _).2.2.2.1

/-- C10: when neither remote call throws, `clientCreateOrder` reports
`success = true` with message "Order placed successfully", and `orderId`
is the remote response's `orderID`, or `"unknown"` when that field is
absent or falsy (empty); a non-throwing remote response is never mapped
to `success = false`. -/
theorem createOrder_success_mapping (params : OrderParams) (r : PostOrderResp) :
    (clientCreateOrder params (.ok ()) (.ok r)).success = true ∧
    (clientCreateOrder params (.ok ()) (.ok r)).message = some "Order placed successfully" ∧
    (clientCreateOrder params (.ok ()) (.ok r)).orderId
      = (match r.orderID with
         | none => "unknown"
         | some s => if s == "" then "unknown" else s) := by
  refine ⟨rfl, rfl, ?_⟩
  cases h : r.orderID with
  | none => simp [clientCreateOrder, orderIdOrUnknown, h]
  | some s => simp [clientCreateOrder, orderIdOrUnknown, h]

end FlowPay
